import Mathlib

/-!
Verification of the personal-finance CLI service layer.

This file shallowly embeds the service-layer business logic of the
repository (transaction ledger, budget, investment and report services)
and proves/refutes the specification claims about it.

Conventions of the embedding:
* Python `Decimal` values are modelled as exact rationals (`ℚ`);
* `datetime.date` / `datetime.datetime` values are modelled as calendar
  triples (year, month, day) with Python's lexicographic ordering
  (time-of-day plays no role in any claim);
* SQLAlchemy sessions are modelled as explicit in-memory stores passed
  in and out of each operation; fallible operations return `Except`;
* Python keyword arguments that may be absent or explicitly `None` are
  modelled as `Option (Option α)`: `none` = absent,
  `some none` = passed as `None`, `some (some v)` = passed as `v`.
-/

namespace FinCli

/-! ## Calendar dates (`datetime.date`) -/

/-- A proleptic-Gregorian calendar date, as used by Python `datetime.date`. -/
structure Date where
  year : ℕ
  month : ℕ
  day : ℕ
deriving DecidableEq, Repr

/-- Gregorian leap-year test (`calendar.isleap`). -/
def isLeap (y : ℕ) : Bool :=
  (y % 4 == 0 && y % 100 != 0) || y % 400 == 0

/-- Number of days in a month (`calendar.monthrange(y, m)[1]`); months
outside 1..12 never occur on valid dates and default to 31. -/
def daysInMonth (y : ℕ) (m : ℕ) : ℕ :=
  if m = 2 then (if isLeap y then 29 else 28)
  else if m = 4 ∨ m = 6 ∨ m = 9 ∨ m = 11 then 30
  else 31

/-- A date is valid when it denotes an actual Python `datetime.date`. -/
def Date.Valid (a : Date) : Prop :=
  1 ≤ a.year ∧ 1 ≤ a.month ∧ a.month ≤ 12 ∧ 1 ≤ a.day ∧ a.day ≤ daysInMonth a.year a.month

instance (a : Date) : Decidable a.Valid := by
  unfold Date.Valid; infer_instance

/-- Python date comparison (lexicographic on year, month, day). -/
def Date.le (a b : Date) : Bool :=
  decide (a.year < b.year) ||
    (decide (a.year = b.year) &&
      (decide (a.month < b.month) ||
        (decide (a.month = b.month) && decide (a.day ≤ b.day))))

/-- Strict Python date comparison. -/
def Date.lt (a b : Date) : Bool :=
  decide (a.year < b.year) ||
    (decide (a.year = b.year) &&
      (decide (a.month < b.month) ||
        (decide (a.month = b.month) && decide (a.day < b.day))))

/-- The next calendar day (`d + timedelta(days=1)`). -/
def Date.succ (a : Date) : Date :=
  if a.day < daysInMonth a.year a.month then ⟨a.year, a.month, a.day + 1⟩
  else if a.month < 12 then ⟨a.year, a.month + 1, 1⟩
  else ⟨a.year + 1, 1, 1⟩

/-- The previous calendar day (`d - timedelta(days=1)`). -/
def Date.pred (a : Date) : Date :=
  if 1 < a.day then ⟨a.year, a.month, a.day - 1⟩
  else if 1 < a.month then ⟨a.year, a.month - 1, daysInMonth a.year (a.month - 1)⟩
  else ⟨a.year - 1, 12, 31⟩

/-- `d + timedelta(days=n)`. -/
def Date.addDays : ℕ → Date → Date
  | 0, a => a
  | n + 1, a => Date.succ (Date.addDays n a)

/-- First day of the month after `a`'s month, exactly as the source
computes it (`date(y+1, 1, 1)` when `month == 12`, else `date(y, m+1, 1)`). -/
def Date.firstOfNextMonth (a : Date) : Date :=
  if a.month = 12 then ⟨a.year + 1, 1, 1⟩ else ⟨a.year, a.month + 1, 1⟩

/-- A monotone linearisation of valid dates, used as loop fuel. -/
def Date.mu (a : Date) : ℕ := a.year * 372 + a.month * 31 + a.day

/-- Count of leap years strictly before year `y` (`y ≥ 1`). -/
def leapsBefore (y : ℕ) : ℕ := (y - 1) / 4 - (y - 1) / 100 + (y - 1) / 400

/-- Days-before-month: number of days of year `y` that precede month `m`. -/
def daysBeforeMonth (y : ℕ) : ℕ → ℕ
  | 0 => 0
  | 1 => 0
  | m + 2 => daysBeforeMonth y (m + 1) + daysInMonth y (m + 1)

/-- Python `date.toordinal()`: day number with `date(1, 1, 1).toordinal() = 1`. -/
def Date.toOrdinal (a : Date) : ℕ :=
  365 * (a.year - 1) + leapsBefore a.year + daysBeforeMonth a.year a.month + a.day

/-! ## Data model (`src/database/models.py`) -/

/-- `TransactionType` enum. -/
inductive TransactionType where
  | income
  | expense
  | transfer
deriving DecidableEq, Repr

/-- `InvestmentType` enum. -/
inductive InvestmentType where
  | stock
  | bond
  | fund
  | crypto
  | real_estate
  | other
deriving DecidableEq, Repr

/-- `Category` row.  The `name` column is declared `nullable=False`; we keep
the field `Option`-typed so that the NOT NULL constraint of the storage
boundary can be modelled at write time. -/
structure Category where
  id : ℕ
  name : Option String
  description : Option String
  created_at : Date
deriving DecidableEq, Repr

/-- `Account` row (fields relevant to the services under verification). -/
structure Account where
  id : ℕ
  name : Option String
  account_type : String
  balance : ℚ
  created_at : Date
deriving DecidableEq, Repr

/-- `Transaction` row (fields touched by the service layer). -/
structure Transaction where
  id : ℕ
  amount : ℚ
  description : String
  transaction_type : TransactionType
  payment_method : String
  transaction_date : Date
  category_id : ℕ
  account_id : ℕ
  tags : Option (List String)
  notes : Option String
  created_at : Date
  updated_at : Date
deriving DecidableEq, Repr

/-- `Budget` row. -/
structure Budget where
  id : ℕ
  name : String
  period_type : String
  year : ℕ
  month : Option ℕ
  description : Option String
  is_active : Bool
  created_at : Date
deriving DecidableEq, Repr

/-- `BudgetCategory` row. -/
structure BudgetCategory where
  id : ℕ
  budget_id : ℕ
  category_id : ℕ
  allocated_amount : ℚ
  description : Option String
deriving DecidableEq, Repr

/-- `Investment` row. -/
structure Investment where
  id : ℕ
  name : String
  investment_type : InvestmentType
  initial_amount : ℚ
  current_value : ℚ
  shares : Option ℚ
  purchase_price : Option ℚ
  description : Option String
  purchase_date : Date
  is_active : Bool
  created_at : Date
deriving DecidableEq, Repr

/-- In-memory image of the database rows the verified services touch.
`next_id` stands for fresh-id generation (`uuid4` in the source). -/
structure DB where
  transactions : List Transaction
  categories : List Category
  accounts : List Account
  budgets : List Budget
  budget_categories : List BudgetCategory
  investments : List Investment
  next_id : ℕ
deriving DecidableEq, Repr

/-- Storage / service errors surfaced by the embedded operations. -/
inductive SvcError where
  /-- `decimal.DivisionByZero` raised by a `Decimal` division `x / 0` with
  `x ≠ 0`. -/
  | divisionByZero
  /-- `decimal.InvalidOperation` raised by the `Decimal` division `0 / 0`. -/
  | invalidOperation
  /-- `TypeError` raised by an unsupported operand combination, such as
  `Decimal ** float`. -/
  | typeError
  /-- NOT NULL column constraint rejected a write. -/
  | notNullViolation
  /-- uniqueness constraint rejected a write. -/
  | constraintViolation
  /-- entity id did not resolve (`ValueError` in the source). -/
  | notFound
  /-- caller-supplied value rejected before any write (CLI validation). -/
  | validationError
deriving DecidableEq, Repr

/-- Python truthiness-based defaulting `x or y` for an optional `Decimal`:
both an absent value and an (explicit) zero fall back to `y`. -/
def pyOrQ (x : Option ℚ) (y : ℚ) : ℚ :=
  match x with
  | none => y
  | some v => if v = 0 then y else v

/-- Python truthiness-based defaulting `x or y` for an optional int. -/
def pyOrNat (x : Option ℕ) (y : ℕ) : ℕ :=
  match x with
  | none => y
  | some v => if v = 0 then y else v

/-- Sum of a list of rationals, as Python `sum` (left fold from 0). -/
def sumQ (l : List ℚ) : ℚ := l.foldl (· + ·) 0

/-! ## Investment service (`src/services/investment_service.py`) -/

/-- `InvestmentService.create_investment`.  The stored `current_value` is
`current_value or initial_amount` (Python truthiness), and `purchase_date`
defaults to the current time. -/
def createInvestment (db : DB) (name : String) (itype : InvestmentType)
    (initial_amount : ℚ) (current_value : Option ℚ) (shares : Option ℚ)
    (purchase_price : Option ℚ) (description : Option String)
    (purchase_date : Option Date) (now : Date) : Investment × DB :=
  let inv : Investment :=
    { id := db.next_id
      name := name
      investment_type := itype
      initial_amount := initial_amount
      current_value := pyOrQ current_value initial_amount
      shares := shares
      purchase_price := purchase_price
      description := description
      purchase_date := purchase_date.getD now
      is_active := true
      created_at := now }
  (inv, { db with investments := db.investments ++ [inv], next_id := db.next_id + 1 })

/-- `InvestmentService.get_investments(active_only=True)`: active rows,
ordered by purchase date descending (stable, like the SQL sort). -/
def getInvestments (db : DB) : List Investment :=
  List.insertionSort (fun a b => b.purchase_date.le a.purchase_date = true)
    (db.investments.filter (·.is_active))

/-- One element of `investments_with_return` in
`InvestmentService.get_portfolio_summary`. -/
structure PerfEntry where
  id : ℕ
  name : String
  investment_type : InvestmentType
  invested : ℚ
  current_value : ℚ
  return_amount : ℚ
  return_percentage : ℚ
deriving DecidableEq, Repr

/-- Per-investment entry of the portfolio summary (source lines 213-226). -/
def perfEntry (inv : Investment) : PerfEntry :=
  let ra := inv.current_value - inv.initial_amount
  { id := inv.id
    name := inv.name
    investment_type := inv.investment_type
    invested := inv.initial_amount
    current_value := inv.current_value
    return_amount := ra
    return_percentage := if 0 < inv.initial_amount then ra / inv.initial_amount * 100 else 0 }

/-- Python `list.sort(key=..., reverse=True)` on return percentage: a stable
descending sort. -/
def sortPerfDesc (l : List PerfEntry) : List PerfEntry :=
  List.insertionSort (fun a b => b.return_percentage ≤ a.return_percentage) l

/-- Per-type aggregation bucket of the portfolio summary. -/
structure TypeAgg where
  count : ℕ
  invested : ℚ
  current_value : ℚ
  ret : ℚ
deriving DecidableEq, Repr

/-- Adds one investment into the `by_type` mapping (dict insertion order). -/
def byTypeAdd (acc : List (InvestmentType × TypeAgg)) (inv : Investment) :
    List (InvestmentType × TypeAgg) :=
  let upd : TypeAgg → TypeAgg := fun a =>
    { count := a.count + 1
      invested := a.invested + inv.initial_amount
      current_value := a.current_value + inv.current_value
      ret := a.ret + (inv.current_value - inv.initial_amount) }
  if acc.any (fun p => p.1 == inv.investment_type) then
    acc.map (fun p => if p.1 == inv.investment_type then (p.1, upd p.2) else p)
  else
    acc ++ [(inv.investment_type, upd ⟨0, 0, 0, 0⟩)]

/-- Result of `InvestmentService.get_portfolio_summary`. -/
structure PortfolioSummary where
  total_invested : ℚ
  current_value : ℚ
  total_return : ℚ
  return_percentage : ℚ
  investments_count : ℕ
  by_type : List (InvestmentType × TypeAgg)
  top_performers : List PerfEntry
  worst_performers : List PerfEntry
deriving DecidableEq, Repr

/-- `InvestmentService.get_portfolio_summary` over the active-investment
list (source lines 173-240).  `worst_performers` is
`investments_with_return[-5:] if len(...) > 5 else []`. -/
def getPortfolioSummary (invs : List Investment) : PortfolioSummary :=
  if invs.isEmpty then
    { total_invested := 0, current_value := 0, total_return := 0, return_percentage := 0
      investments_count := 0, by_type := [], top_performers := [], worst_performers := [] }
  else
    let ti := sumQ (invs.map (·.initial_amount))
    let cv := sumQ (invs.map (·.current_value))
    let tr := cv - ti
    let sorted := sortPerfDesc (invs.map perfEntry)
    { total_invested := ti
      current_value := cv
      total_return := tr
      return_percentage := if 0 < ti then tr / ti * 100 else 0
      investments_count := invs.length
      by_type := invs.foldl byTypeAdd []
      top_performers := sorted.take 5
      worst_performers := if 5 < sorted.length then sorted.drop (sorted.length - 5) else [] }

/-- Portfolio summary as invoked through the service (active investments). -/
def portfolioSummary (db : DB) : PortfolioSummary :=
  getPortfolioSummary (getInvestments db)

/-- The `performance` block of `InvestmentService.get_investment_performance`.
`annualized` is the reported `annualized_return`; a block is only ever
returned with `annualized = 0`, because the `holding_days > 0` branch of
the source raises before producing a value (see
`getInvestmentPerformance`). -/
structure Performance where
  total_return : ℚ
  return_percentage : ℚ
  annualized : ℚ
  holding_days : ℤ
deriving DecidableEq, Repr

/-- Python date subtraction `(today - purchase).days`. -/
def holdingDays (purchase today : Date) : ℤ :=
  (today.toOrdinal : ℤ) - (purchase.toOrdinal : ℤ)

/-- `InvestmentService.get_investment_performance` on a resolved investment
(source lines 258-290).  `holding_days = (today - purchase_date).days`.
When `holding_days > 0`, line 267 evaluates
`(current_value / initial_amount) ** (365.25 / holding_days)` on `Decimal`
operands: the division raises `decimal.InvalidOperation` for `0 / 0` and
`decimal.DivisionByZero` for `x / 0` with `x ≠ 0`; when it succeeds, the
power itself raises `TypeError` (`Decimal ** float` is an unsupported
operand combination), so this branch never returns.  Only when
`holding_days ≤ 0` does the call return, with `annualized_return = 0`. -/
def getInvestmentPerformance (inv : Investment) (today : Date) :
    Except SvcError Performance :=
  let tr := inv.current_value - inv.initial_amount
  let rp := if 0 < inv.initial_amount then tr / inv.initial_amount * 100 else 0
  let hd : ℤ := holdingDays inv.purchase_date today
  if 0 < hd then
    if inv.initial_amount = 0 then
      if inv.current_value = 0 then .error .invalidOperation
      else .error .divisionByZero
    else .error .typeError
  else
    .ok { total_return := tr, return_percentage := rp
          annualized := 0, holding_days := hd }

/-- `get_investment_performance` looked up by id (raises when missing). -/
def getInvestmentPerformanceById (db : DB) (iid : ℕ) (today : Date) :
    Except SvcError Performance :=
  match db.investments.find? (fun i => i.id == iid) with
  | none => .error .notFound
  | some inv => getInvestmentPerformance inv today

/-! ## Transaction service (`src/services/transaction_service.py`) -/

/-- `_get_or_create_category`: find by (nullable) name, else insert; the
NOT NULL constraint on `categories.name` rejects an insert without a name.
Returns the category id and the (possibly extended) store. -/
def getOrCreateCategory (db : DB) (name : Option String) (now : Date) :
    Except SvcError (ℕ × DB) :=
  match db.categories.find? (fun c => c.name == name) with
  | some c => .ok (c.id, db)
  | none =>
    match name with
    | none => .error .notNullViolation
    | some s =>
      let c : Category :=
        { id := db.next_id, name := some s
          description := some ("Categoría " ++ s), created_at := now }
      .ok (c.id, { db with categories := db.categories ++ [c], next_id := db.next_id + 1 })

/-- `_get_or_create_account`, analogous to `_get_or_create_category`. -/
def getOrCreateAccount (db : DB) (name : Option String) (now : Date) :
    Except SvcError (ℕ × DB) :=
  match db.accounts.find? (fun a => a.name == name) with
  | some a => .ok (a.id, db)
  | none =>
    match name with
    | none => .error .notNullViolation
    | some s =>
      let a : Account :=
        { id := db.next_id, name := some s, account_type := "general"
          balance := 0, created_at := now }
      .ok (a.id, { db with accounts := db.accounts ++ [a], next_id := db.next_id + 1 })

/-- Keyword arguments of `TransactionService.update_transaction`.
`none` = key absent, `some none` = passed as `None`,
`some (some v)` = passed with value `v`. -/
structure TxKwargs where
  amount : Option (Option ℚ) := none
  description : Option (Option String) := none
  transaction_type : Option (Option TransactionType) := none
  payment_method : Option (Option String) := none
  tags : Option (Option (List String)) := none
  notes : Option (Option String) := none
  transaction_date : Option (Option Date) := none
  category_name : Option (Option String) := none
  account_name : Option (Option String) := none
deriving DecidableEq, Repr

/-- `setattr(transaction, field, value)` guarded by `value is not None`. -/
def kwSet {α : Type} (cur : α) (kw : Option (Option α)) : α :=
  match kw with
  | some (some v) => v
  | _ => cur

/-- `setattr` on a nullable column: a present non-`None` value is stored;
an absent or `None`-valued keyword leaves the column as it was (so a
column can never be cleared through this path). -/
def kwSetOpt {α : Type} (cur : Option α) (kw : Option (Option α)) : Option α :=
  match kw with
  | some (some v) => some v
  | _ => cur

/-- The update of the seven allowed scalar fields (source lines 177-184):
a field changes only when its keyword is present with a non-`None` value. -/
def applyScalarKwargs (t : Transaction) (kw : TxKwargs) : Transaction :=
  { t with
    amount := kwSet t.amount kw.amount
    description := kwSet t.description kw.description
    transaction_type := kwSet t.transaction_type kw.transaction_type
    payment_method := kwSet t.payment_method kw.payment_method
    tags := kwSetOpt t.tags kw.tags
    notes := kwSetOpt t.notes kw.notes
    transaction_date := kwSet t.transaction_date kw.transaction_date }

/-- `TransactionService.update_transaction` (source lines 165-205).
The seven allowed scalar fields are updated only when the keyword is
present with a non-`None` value; `category_name` / `account_name` are
handled by presence alone (`'category_name' in kwargs`), so a `None`
value still triggers the get-or-create lookup (which fails on the NOT
NULL name constraint).  On any storage error the unit of work is rolled
back: the error branch leaves the input store untouched. -/
def updateTransaction (db : DB) (tid : ℕ) (kw : TxKwargs) (now : Date) :
    Except SvcError (Option (Transaction × DB)) :=
  match db.transactions.find? (fun t => t.id == tid) with
  | none => .ok none
  | some t =>
    let t1 := applyScalarKwargs t kw
    match (match kw.category_name with
           | none => .ok (t1.category_id, db)
           | some cn => getOrCreateCategory db cn now :
           Except SvcError (ℕ × DB)) with
    | .error e => .error e
    | .ok (cid, db2) =>
      match (match kw.account_name with
             | none => .ok (t1.account_id, db2)
             | some an => getOrCreateAccount db2 an now :
             Except SvcError (ℕ × DB)) with
      | .error e => .error e
      | .ok (aid, db3) =>
        let t4 : Transaction :=
          { t1 with category_id := cid, account_id := aid, updated_at := now }
        let committed := db3.transactions.map (fun u => if u.id == tid then t4 else u)
        .ok (some (t4, { db3 with transactions := committed }))

/-- Whether a transaction joins to an account with the given name. -/
def txMatchesAccount (db : DB) (an : String) (t : Transaction) : Bool :=
  db.accounts.any (fun a => a.id == t.account_id && a.name == some an)

/-- The filter applied by `TransactionService.get_summary`: inclusive date
range plus optional account join. -/
def summaryFilter (db : DB) (sd ed : Option Date) (an : Option String)
    (t : Transaction) : Bool :=
  (match sd with | none => true | some d => d.le t.transaction_date) &&
  (match ed with | none => true | some d => t.transaction_date.le d) &&
  (match an with | none => true | some nm => txMatchesAccount db nm t)

/-- One `top_categories` element of the ledger summary. -/
structure TopCat where
  name : String
  amount : ℚ
deriving DecidableEq, Repr

/-- Adds an amount into an association list keyed by category name. -/
def assocAdd (acc : List (String × ℚ)) (nm : String) (amt : ℚ) :
    List (String × ℚ) :=
  if acc.any (fun p => p.1 == nm) then
    acc.map (fun p => if p.1 == nm then (p.1, p.2 + amt) else p)
  else acc ++ [(nm, amt)]

/-- Expense totals grouped by joined category name (inner join: rows whose
category is missing, or whose stored name is null, drop out). -/
def expenseByCategory (db : DB) (txs : List Transaction) : List (String × ℚ) :=
  txs.foldl (fun acc t =>
    match (db.categories.find? (fun c => c.id == t.category_id)).bind (·.name) with
    | none => acc
    | some nm => assocAdd acc nm t.amount) []

/-- Stable descending sort of (name, total) pairs by total. -/
def sortPairsDesc (l : List (String × ℚ)) : List (String × ℚ) :=
  List.insertionSort (fun a b => b.2 ≤ a.2) l

/-- Result of `TransactionService.get_summary`. -/
structure LedgerSummary where
  income_total : ℚ
  expense_total : ℚ
  balance : ℚ
  total_transactions : ℕ
  top_categories : List TopCat
deriving DecidableEq, Repr

/-- `TransactionService.get_summary` (source lines 225-284). -/
def getSummary (db : DB) (sd ed : Option Date) (an : Option String) :
    LedgerSummary :=
  let txs := db.transactions.filter (summaryFilter db sd ed an)
  let inc := sumQ ((txs.filter (fun t => t.transaction_type == .income)).map (·.amount))
  let exp := sumQ ((txs.filter (fun t => t.transaction_type == .expense)).map (·.amount))
  { income_total := inc
    expense_total := exp
    balance := inc - exp
    total_transactions := txs.length
    top_categories :=
      ((sortPairsDesc (expenseByCategory db
          (txs.filter (fun t => t.transaction_type == .expense)))).take 5).map
        (fun p => { name := p.1, amount := p.2 }) }

/-! ## Budget service (`src/services/budget_service.py`) -/

/-- `BudgetService.create_budget` (source lines 33-63): builds the row and
commits; the storage boundary enforces the uniqueness constraint
`uq_budget_period` on `(period_type, year, month)`.  The service itself
performs no validation of `period_type` or `month`. -/
def createBudget (db : DB) (name : String) (period_type : String) (year : ℕ)
    (month : Option ℕ) (description : Option String) (now : Date) :
    Except SvcError (Budget × DB) :=
  let b : Budget :=
    { id := db.next_id, name := name, period_type := period_type
      year := year, month := month, description := description
      is_active := true, created_at := now }
  if db.budgets.any (fun x =>
      x.period_type == period_type && x.year == year && x.month == month) then
    .error .constraintViolation
  else
    .ok (b, { db with budgets := db.budgets ++ [b], next_id := db.next_id + 1 })

/-- The CLI `budgets create` command (`src/cli/commands/budgets.py` lines
29-67): validates the period type, defaults the year and month from the
current date, rejects an out-of-range month for monthly budgets, forces
`month = None` for yearly budgets, then calls the service. -/
def createBudgetCommand (db : DB) (name : String) (period_type : String)
    (year : Option ℕ) (month : Option ℤ) (description : Option String)
    (now : Date) : Except SvcError (Budget × DB) :=
  if period_type ≠ "monthly" ∧ period_type ≠ "yearly" then .error .validationError
  else
    let y := year.getD now.year
    let resolvedMonth : Except SvcError (Option ℕ) :=
      if period_type = "monthly" then
        match month with
        | none => .ok (some now.month)
        | some m => if m < 1 ∨ 12 < m then .error .validationError else .ok (some m.toNat)
      else .ok none
    resolvedMonth.bind fun m => createBudget db name period_type y m description now

/-- The budget period window of `get_budget_analysis` (source lines
156-165): `[start_date, end_date)` with `start = date(year, month or 1, 1)`
and `end` the first day of the following month (monthly) or of the
following year (yearly; any period type other than "monthly" takes the
yearly branch). -/
def budgetWindow (b : Budget) : Date × Date :=
  if b.period_type = "monthly" then
    (⟨b.year, pyOrNat b.month 1, 1⟩,
      if b.month == some 12 then ⟨b.year + 1, 1, 1⟩
      else ⟨b.year, pyOrNat b.month 1 + 1, 1⟩)
  else (⟨b.year, 1, 1⟩, ⟨b.year + 1, 1, 1⟩)

/-- Sum of expense amounts of one category inside `[sd, ed)` (the
`spent_amount` query of `get_budget_analysis`, `or Decimal('0')` included
via the empty sum). -/
def spentFor (db : DB) (cid : ℕ) (sd ed : Date) : ℚ :=
  sumQ ((db.transactions.filter (fun t =>
    t.category_id == cid && t.transaction_type == .expense &&
      sd.le t.transaction_date && t.transaction_date.lt ed)).map (·.amount))

/-- One per-category block of the budget analysis.  `category_id` carries
the `budget_cat.category` reference that the source renders as a name. -/
structure CategoryAnalysis where
  category_id : ℕ
  category_name : Option String
  allocated_amount : ℚ
  spent_amount : ℚ
  remaining_amount : ℚ
  percentage_used : ℚ
  is_over_budget : Bool
deriving DecidableEq, Repr

/-- Result of `BudgetService.get_budget_analysis`. -/
structure BudgetAnalysis where
  budget_id : ℕ
  period_start : Date
  period_end : Date
  categories : List CategoryAnalysis
  total_allocated : ℚ
  total_spent : ℚ
  total_remaining : ℚ
  total_percentage_used : ℚ
  is_over_budget : Bool
deriving DecidableEq, Repr

/-- `BudgetService.get_budget_analysis` (source lines 142-223). -/
def getBudgetAnalysis (db : DB) (bid : ℕ) : Except SvcError BudgetAnalysis :=
  match db.budgets.find? (fun b => b.id == bid) with
  | none => .error .notFound
  | some b =>
    let w := budgetWindow b
    let bcs := db.budget_categories.filter (fun bc => bc.budget_id == bid)
    let cats := bcs.map (fun bc =>
      let spent := spentFor db bc.category_id w.1 w.2
      let alloc := bc.allocated_amount
      ({ category_id := bc.category_id
         category_name :=
           (db.categories.find? (fun c => c.id == bc.category_id)).bind (·.name)
         allocated_amount := alloc
         spent_amount := spent
         remaining_amount := alloc - spent
         percentage_used := if 0 < alloc then spent / alloc * 100 else 0
         is_over_budget := decide (alloc < spent) } : CategoryAnalysis))
    let ta := sumQ (cats.map (·.allocated_amount))
    let ts := sumQ (cats.map (·.spent_amount))
    .ok { budget_id := b.id, period_start := w.1, period_end := w.2
          categories := cats
          total_allocated := ta, total_spent := ts
          total_remaining := ta - ts
          total_percentage_used := if 0 < ta then ts / ta * 100 else 0
          is_over_budget := decide (ta < ts) }

/-! ## Report service (`src/services/report_service.py`) -/

/-- `ReportService._calculate_percentage_change` (source lines 461-466). -/
def calculatePercentageChange (old_value new_value : ℚ) : ℚ :=
  if old_value = 0 then (if 0 < new_value then 100 else 0)
  else (new_value - old_value) / old_value * 100

/-- Result of `ReportService._get_transactions_summary`. -/
structure TxSummary where
  income_total : ℚ
  expense_total : ℚ
  net_amount : ℚ
  transactions_count : ℕ
  average_transaction : ℚ
  top_expense_categories : List TopCat
deriving DecidableEq, Repr

/-- `ReportService._get_transactions_summary` (source lines 302-347):
inclusive date range; expense totals grouped by `t.category.name`
("Sin categoría" when the category does not resolve). -/
def getTransactionsSummary (db : DB) (sd ed : Date) : TxSummary :=
  let txs := db.transactions.filter (fun t =>
    sd.le t.transaction_date && t.transaction_date.le ed)
  let inc := sumQ ((txs.filter (fun t => t.transaction_type == .income)).map (·.amount))
  let exp := sumQ ((txs.filter (fun t => t.transaction_type == .expense)).map (·.amount))
  let byCat := (txs.filter (fun t => t.transaction_type == .expense)).foldl
    (fun acc t =>
      let nm := (((db.categories.find? (fun c => c.id == t.category_id)).bind
        (·.name)).getD "Sin categoría")
      assocAdd acc nm t.amount) []
  { income_total := inc
    expense_total := exp
    net_amount := inc - exp
    transactions_count := txs.length
    average_transaction :=
      if txs.length = 0 then 0 else sumQ (txs.map (·.amount)) / (txs.length : ℚ)
    top_expense_categories :=
      ((sortPairsDesc byCat).take 5).map (fun p => { name := p.1, amount := p.2 }) }

/-- The `changes` block of `ReportService._get_monthly_trends` (source
lines 378-422): compares the month to the immediately preceding month
(January wraps to the previous December) via the percentage-change helper. -/
def getMonthlyTrendChanges (db : DB) (year month : ℕ) : ℚ × ℚ :=
  let prev := if month = 1 then (year - 1, 12) else (year, month - 1)
  let cur := getTransactionsSummary db ⟨year, month, 1⟩
    ⟨year, month, daysInMonth year month⟩
  let prv := getTransactionsSummary db ⟨prev.1, prev.2, 1⟩
    ⟨prev.1, prev.2, daysInMonth prev.1 prev.2⟩
  (calculatePercentageChange prv.income_total cur.income_total,
   calculatePercentageChange prv.expense_total cur.expense_total)

/-- The `growth_rates` block of `ReportService._get_yearly_growth_analysis`
(source lines 424-455): income, expense and net growth against the previous
calendar year, via the percentage-change helper. -/
def getYearlyGrowthRates (db : DB) (year : ℕ) : ℚ × ℚ × ℚ :=
  let cur := getTransactionsSummary db ⟨year, 1, 1⟩ ⟨year, 12, 31⟩
  let prv := getTransactionsSummary db ⟨year - 1, 1, 1⟩ ⟨year - 1, 12, 31⟩
  (calculatePercentageChange prv.income_total cur.income_total,
   calculatePercentageChange prv.expense_total cur.expense_total,
   calculatePercentageChange prv.net_amount cur.net_amount)

/-- Cash-flow bucket granularity (the three accepted values). -/
inductive Granularity where
  | daily
  | weekly
  | monthly
deriving DecidableEq, Repr

/-- The granularity validation of `generate_cash_flow_report`. -/
def parseGranularity (s : String) : Option Granularity :=
  if s = "daily" then some .daily
  else if s = "weekly" then some .weekly
  else if s = "monthly" then some .monthly
  else none

/-- Bucket end date per granularity (source lines 236-248): the day itself,
the sixth day after, or the last day of the current month. -/
def periodEnd (g : Granularity) (cur : Date) : Date :=
  match g with
  | .daily => cur
  | .weekly => Date.addDays 6 cur
  | .monthly => (Date.firstOfNextMonth cur).pred

/-- Next bucket start per granularity (source lines 236-248). -/
def nextDate (g : Granularity) (cur : Date) : Date :=
  match g with
  | .daily => Date.addDays 1 cur
  | .weekly => Date.addDays 7 cur
  | .monthly => Date.firstOfNextMonth cur

/-- One bucket of the cash-flow report. -/
structure CashFlowBucket where
  period_start : Date
  period_end : Date
  income : ℚ
  expense : ℚ
  net_flow : ℚ
  running_balance : ℚ
  transactions_count : ℕ
deriving DecidableEq, Repr

/-- One loop iteration of `generate_cash_flow_report` (source lines
250-277): the bucket for the period starting at `cur`, with the running
balance entering the period equal to `bal`. -/
def bucketFor (g : Granularity) (txs : List Transaction) (cur : Date) (bal : ℚ) :
    CashFlowBucket :=
  let pe := periodEnd g cur
  let ptxs := txs.filter (fun t =>
    cur.le t.transaction_date && t.transaction_date.le pe)
  let inc := sumQ ((ptxs.filter (fun t => t.transaction_type == .income)).map (·.amount))
  let exp := sumQ ((ptxs.filter (fun t => t.transaction_type == .expense)).map (·.amount))
  let net := inc - exp
  { period_start := cur, period_end := pe, income := inc, expense := exp
    net_flow := net, running_balance := bal + net
    transactions_count := ptxs.length }

/-- The `while current_date <= end_date` loop of
`generate_cash_flow_report` (source lines 230-279), with explicit fuel;
`Date.mu` strictly increases at every step on valid dates, so the fuel
supplied by `generateCashFlowReport` never runs out. -/
def cashFlowGo (g : Granularity) (txs : List Transaction) (e : Date) :
    ℕ → Date → ℚ → List CashFlowBucket
  | 0, _, _ => []
  | fuel + 1, cur, bal =>
    if cur.le e then
      bucketFor g txs cur bal ::
        cashFlowGo g txs e fuel (nextDate g cur)
          (bucketFor g txs cur bal).running_balance
    else []

/-- Result of `ReportService.generate_cash_flow_report`. -/
structure CashFlowReport where
  cash_flow : List CashFlowBucket
  total_income : ℚ
  total_expense : ℚ
  net_flow : ℚ
  final_balance : ℚ
  periods_count : ℕ
deriving DecidableEq, Repr

/-- The bucket list of the cash-flow report over a date range. -/
def cashFlowBuckets (g : Granularity) (db : DB) (sd ed : Date) :
    List CashFlowBucket :=
  let txs := db.transactions.filter (fun t =>
    sd.le t.transaction_date && t.transaction_date.le ed)
  cashFlowGo g txs ed (ed.mu + 1 - sd.mu) sd 0

/-- `ReportService.generate_cash_flow_report` (source lines 204-296):
rejects an unknown granularity before touching the store, then buckets the
inclusive date range. -/
def generateCashFlowReport (db : DB) (sd ed : Date) (granularity : String) :
    Except SvcError CashFlowReport :=
  match parseGranularity granularity with
  | none => .error .validationError
  | some g =>
    let bs := cashFlowBuckets g db sd ed
    .ok { cash_flow := bs
          total_income := sumQ (bs.map (·.income))
          total_expense := sumQ (bs.map (·.expense))
          net_flow := sumQ (bs.map (·.net_flow))
          final_balance := (bs.getLast?).elim 0 (·.running_balance)
          periods_count := bs.length }

/-- The running-balance invariant of a bucket list: starting from `bal`,
each bucket's `running_balance` is the previous balance plus its own
`net_flow`. -/
def RBOk : ℚ → List CashFlowBucket → Prop
  | _, [] => True
  | bal, b :: l => b.running_balance = bal + b.net_flow ∧ RBOk b.running_balance l

/-! ## Concrete fixtures used by counterexamples and witnesses -/

/-- An empty store. -/
def emptyDB : DB :=
  { transactions := [], categories := [], accounts := [], budgets := []
    budget_categories := [], investments := [], next_id := 1 }

/-- A single profitable investment. -/
def exInv1 : Investment :=
  { id := 1, name := "AAPL", investment_type := .stock
    initial_amount := 1000, current_value := 1200
    shares := none, purchase_price := none, description := none
    purchase_date := ⟨2024, 1, 1⟩, is_active := true, created_at := ⟨2024, 1, 1⟩ }

/-- An investment created with `initial_amount = 0`. -/
def exZeroInv : Investment :=
  { id := 2, name := "ZERO", investment_type := .other
    initial_amount := 0, current_value := 100
    shares := none, purchase_price := none, description := none
    purchase_date := ⟨2024, 1, 1⟩, is_active := true, created_at := ⟨2024, 1, 1⟩ }

/-- An investment with both `initial_amount = 0` and `current_value = 0`
(reachable via `update_investment_value`). -/
def exZeroZeroInv : Investment :=
  { id := 4, name := "ZZ", investment_type := .other
    initial_amount := 0, current_value := 0
    shares := none, purchase_price := none, description := none
    purchase_date := ⟨2024, 1, 1⟩, is_active := true, created_at := ⟨2024, 1, 1⟩ }

/-- A portfolio of six investments with pairwise distinct returns. -/
def exInvs6 : List Investment :=
  [⟨11, "A", .stock, 100, 160, none, none, none, ⟨2024, 1, 1⟩, true, ⟨2024, 1, 1⟩⟩,
   ⟨12, "B", .stock, 100, 150, none, none, none, ⟨2024, 1, 1⟩, true, ⟨2024, 1, 1⟩⟩,
   ⟨13, "C", .bond, 100, 140, none, none, none, ⟨2024, 1, 1⟩, true, ⟨2024, 1, 1⟩⟩,
   ⟨14, "D", .fund, 100, 130, none, none, none, ⟨2024, 1, 1⟩, true, ⟨2024, 1, 1⟩⟩,
   ⟨15, "E", .crypto, 100, 120, none, none, none, ⟨2024, 1, 1⟩, true, ⟨2024, 1, 1⟩⟩,
   ⟨16, "F", .other, 100, 110, none, none, none, ⟨2024, 1, 1⟩, true, ⟨2024, 1, 1⟩⟩]

/-- The transaction row used by the update/analysis fixtures. -/
def exTx3 : Transaction :=
  { id := 3, amount := 600, description := "Shopping"
    transaction_type := .expense, payment_method := "cash"
    transaction_date := ⟨2025, 6, 15⟩, category_id := 1, account_id := 2
    tags := none, notes := none
    created_at := ⟨2025, 6, 15⟩, updated_at := ⟨2025, 6, 15⟩ }

/-- A store with one category, one account, one expense transaction, and a
monthly budget for 2025-06 allocating 500 to that category. -/
def exBudgetDB : DB :=
  { transactions := [exTx3]
    categories := [⟨1, some "food", none, ⟨2025, 1, 1⟩⟩]
    accounts := [⟨2, some "main", "general", 0, ⟨2025, 1, 1⟩⟩]
    budgets := [⟨10, "June", "monthly", 2025, some 6, none, true, ⟨2025, 1, 1⟩⟩]
    budget_categories := [⟨20, 10, 1, 500, none⟩]
    investments := []
    next_id := 100 }

/-- The analysis expected for `exBudgetDB`'s budget 10. -/
def exAnalysis6 : BudgetAnalysis :=
  { budget_id := 10
    period_start := ⟨2025, 6, 1⟩
    period_end := ⟨2025, 7, 1⟩
    categories := [{ category_id := 1, category_name := some "food"
                     allocated_amount := 500, spent_amount := 600
                     remaining_amount := -100, percentage_used := 120
                     is_over_budget := true }]
    total_allocated := 500, total_spent := 600, total_remaining := -100
    total_percentage_used := 120, is_over_budget := true }

/-- The transaction expected after updating `exTx3` with a `None`-valued
`description` keyword at time 2025-07-01. -/
def exTx3After : Transaction := { exTx3 with updated_at := ⟨2025, 7, 1⟩ }

/-- The store expected after that update. -/
def exBudgetDBAfter : DB := { exBudgetDB with transactions := [exTx3After] }

/-! ## Order instances for the stable descending sorts -/

instance : IsTotal PerfEntry (fun a b => b.return_percentage ≤ a.return_percentage) :=
  ⟨fun a b => le_total b.return_percentage a.return_percentage⟩

instance : IsTrans PerfEntry (fun a b => b.return_percentage ≤ a.return_percentage) :=
  ⟨fun _ _ _ hab hbc => le_trans hbc hab⟩

/-! # Theorems -/

/-- C7: the percentage-change helper used by monthly trends and yearly
growth returns +100 when the old total is 0 and the new one is positive,
0 when both are 0, and `(new − old)/old × 100` when the old total is
non-zero. -/
theorem c7_percentage_change (o n : ℚ) :
    (o = 0 → 0 < n → calculatePercentageChange o n = 100) ∧
    (o = 0 → n = 0 → calculatePercentageChange o n = 0) ∧
    (o ≠ 0 → calculatePercentageChange o n = (n - o) / o * 100) := by
  refine ⟨fun h hn => ?_, fun h hn => ?_, fun h => ?_⟩
  · simp [calculatePercentageChange, h, hn]
  · simp [calculatePercentageChange, h, hn]
  · simp [calculatePercentageChange, h]

/-- Witness for C7 at the three documented inputs:
`(0, 50) ↦ 100`, `(0, 0) ↦ 0`, `(200, 150) ↦ −25`. -/
theorem c7_percentage_change_witness :
    calculatePercentageChange 0 50 = 100 ∧
    calculatePercentageChange 0 0 = 0 ∧
    calculatePercentageChange 200 150 = -25 := by
  refine ⟨(c7_percentage_change 0 50).1 rfl (by norm_num),
          (c7_percentage_change 0 0).2.1 rfl rfl, ?_⟩
  rw [(c7_percentage_change 200 150).2.2 (by norm_num)]
  norm_num

/-- C9: `create_investment` called with an explicit `current_value = 0`
stores `current_value = initial_amount`, exactly as if the argument had
been absent. -/
theorem c9_create_investment_zero_current_value
    (db : DB) (nm : String) (itype : InvestmentType) (ia : ℚ)
    (sh pp : Option ℚ) (ds : Option String) (pd : Option Date) (now : Date) :
    createInvestment db nm itype ia (some 0) sh pp ds pd now =
      createInvestment db nm itype ia none sh pp ds pd now ∧
    (createInvestment db nm itype ia (some 0) sh pp ds pd now).1.current_value = ia := by
  constructor <;> simp [createInvestment, pyOrQ]

/-- C8: for every combination of the optional filters, the ledger summary
satisfies `balance = income_total − expense_total` exactly, where the two
totals are the exact sums of the amounts of the matching income and
expense transactions. -/
theorem c8_summary_balance (db : DB) (sd ed : Option Date) (an : Option String) :
    (getSummary db sd ed an).balance =
      (getSummary db sd ed an).income_total - (getSummary db sd ed an).expense_total ∧
    (getSummary db sd ed an).income_total =
      sumQ ((db.transactions.filter (fun t =>
        summaryFilter db sd ed an t && t.transaction_type == .income)).map (·.amount)) ∧
    (getSummary db sd ed an).expense_total =
      sumQ ((db.transactions.filter (fun t =>
        summaryFilter db sd ed an t && t.transaction_type == .expense)).map (·.amount)) := by
  refine ⟨rfl, ?_, ?_⟩ <;>
    simp only [getSummary, List.filter_filter] <;>
    rw [List.filter_congr (fun t _ => Bool.and_comm _ _)]

/-- C3: the claim (and the spec) describe the intended behaviour —
annualised return computed when `holding_days > 0` and
`initial_amount > 0`, reported as 0 otherwise, with no division error —
but the code cannot deliver it: whenever `holding_days > 0` the call
raises.  With `initial_amount ≠ 0` the `Decimal ** float` power at line
267 raises `TypeError`; with `initial_amount = 0` the preceding division
raises `decimal.DivisionByZero` (`InvalidOperation` for `0 / 0`).  A
performance block is returned, with `annualized_return = 0`, exactly when
`holding_days ≤ 0`.  The closed conjuncts evaluate the failing inputs:
a 1000 → 1200 investment held 10 days, the two zero-initial cases, and a
same-day holding that does return 0. -/
theorem c3_annualized_never_computed :
    (∀ (inv : Investment) (today : Date), 0 < holdingDays inv.purchase_date today →
      getInvestmentPerformance inv today =
        .error (if inv.initial_amount = 0 then
          (if inv.current_value = 0 then SvcError.invalidOperation
           else SvcError.divisionByZero)
          else SvcError.typeError)) ∧
    (∀ (inv : Investment) (today : Date), holdingDays inv.purchase_date today ≤ 0 →
      ∃ p, getInvestmentPerformance inv today = .ok p ∧
        p.annualized = 0 ∧
        p.holding_days = holdingDays inv.purchase_date today) ∧
    getInvestmentPerformance exInv1 ⟨2024, 1, 11⟩ = .error .typeError ∧
    getInvestmentPerformance exZeroInv ⟨2024, 1, 11⟩ = .error .divisionByZero ∧
    getInvestmentPerformance exZeroZeroInv ⟨2024, 1, 11⟩ = .error .invalidOperation ∧
    (getInvestmentPerformance exInv1 ⟨2024, 1, 1⟩).map
      (fun p => (p.annualized, p.holding_days)) = .ok (0, 0) := by
  refine ⟨?_, ?_, rfl, rfl, rfl, rfl⟩
  · intro inv today h
    simp only [getInvestmentPerformance]
    rw [if_pos h]
    split_ifs <;> rfl
  · intro inv today h
    simp only [getInvestmentPerformance]
    rw [if_neg (by omega)]
    exact ⟨⟨inv.current_value - inv.initial_amount,
      if 0 < inv.initial_amount then
        (inv.current_value - inv.initial_amount) / inv.initial_amount * 100 else 0,
      0, holdingDays inv.purchase_date today⟩, rfl, rfl, rfl⟩

/-- Witness for C3: the raising branch applied to the 10-day holding of
the 1000 → 1200 investment (the `TypeError` case). -/
theorem c3_annualized_never_computed_witness :
    0 < holdingDays exInv1.purchase_date ⟨2024, 1, 11⟩ ∧
    getInvestmentPerformance exInv1 ⟨2024, 1, 11⟩ =
      .error (if exInv1.initial_amount = 0 then
        (if exInv1.current_value = 0 then SvcError.invalidOperation
         else SvcError.divisionByZero)
        else SvcError.typeError) :=
  ⟨by decide,
    c3_annualized_never_computed.1 exInv1 ⟨2024, 1, 11⟩ (by decide)⟩

/-- C1 counterexample: a portfolio with a single (hence ≤ 5) active
investment has an empty `worst_performers` list, while the claim requires
the bottom-`min 5 n` investments (here, the one investment) to appear. -/
theorem c1_counterexample :
    (getPortfolioSummary [exInv1]).worst_performers = [] ∧
    (getPortfolioSummary [exInv1]).top_performers = [perfEntry exInv1] := by
  constructor <;> rfl

/-- C1 amended: `top_performers` is the first five of the stable descending
sort of the per-investment entries (all of them when fewer), while
`worst_performers` is the last five only when there are more than five
investments and is empty otherwise; consequently overlap between the two
lists occurs exactly for portfolios of six to nine investments (witnessed
here for six), not for portfolios of at most five. -/
theorem c1_performers (invs : List Investment) :
    (getPortfolioSummary invs).top_performers =
      (sortPerfDesc (invs.map perfEntry)).take 5 ∧
    (getPortfolioSummary invs).worst_performers =
      (if 5 < invs.length then
        (sortPerfDesc (invs.map perfEntry)).drop (invs.length - 5) else []) ∧
    List.Sorted (fun a b => b.return_percentage ≤ a.return_percentage)
      (sortPerfDesc (invs.map perfEntry)) ∧
    List.Perm (sortPerfDesc (invs.map perfEntry)) (invs.map perfEntry) ∧
    (getPortfolioSummary invs).top_performers.length = min 5 invs.length ∧
    (∀ a ∈ (getPortfolioSummary invs).top_performers,
      ∀ b ∈ (sortPerfDesc (invs.map perfEntry)).drop 5,
        b.return_percentage ≤ a.return_percentage) ∧
    (∃ e, e ∈ (getPortfolioSummary exInvs6).top_performers ∧
      e ∈ (getPortfolioSummary exInvs6).worst_performers) := by
  have hperm : List.Perm (sortPerfDesc (invs.map perfEntry)) (invs.map perfEntry) :=
    List.perm_insertionSort _ _
  have hlen : (sortPerfDesc (invs.map perfEntry)).length = invs.length := by
    rw [hperm.length_eq, List.length_map]
  have hsorted : List.Sorted (fun a b => b.return_percentage ≤ a.return_percentage)
      (sortPerfDesc (invs.map perfEntry)) := List.sorted_insertionSort _ _
  have htop6 : (getPortfolioSummary exInvs6).top_performers =
      [⟨11, "A", .stock, 100, 160, 60, 60⟩, ⟨12, "B", .stock, 100, 150, 50, 50⟩,
       ⟨13, "C", .bond, 100, 140, 40, 40⟩, ⟨14, "D", .fund, 100, 130, 30, 30⟩,
       ⟨15, "E", .crypto, 100, 120, 20, 20⟩] := by
    norm_num [getPortfolioSummary, exInvs6, perfEntry, sortPerfDesc,
      List.insertionSort, List.orderedInsert]
  have hworst6 : (getPortfolioSummary exInvs6).worst_performers =
      [⟨12, "B", .stock, 100, 150, 50, 50⟩, ⟨13, "C", .bond, 100, 140, 40, 40⟩,
       ⟨14, "D", .fund, 100, 130, 30, 30⟩, ⟨15, "E", .crypto, 100, 120, 20, 20⟩,
       ⟨16, "F", .other, 100, 110, 10, 10⟩] := by
    norm_num [getPortfolioSummary, exInvs6, perfEntry, sortPerfDesc,
      List.insertionSort, List.orderedInsert]
  have hover : ∃ e, e ∈ (getPortfolioSummary exInvs6).top_performers ∧
      e ∈ (getPortfolioSummary exInvs6).worst_performers :=
    ⟨⟨12, "B", .stock, 100, 150, 50, 50⟩, by rw [htop6]; simp, by rw [hworst6]; simp⟩
  by_cases hinv : invs.isEmpty
  · rw [List.isEmpty_iff] at hinv
    subst hinv
    exact ⟨rfl, rfl, hsorted, hperm, rfl, by simp [getPortfolioSummary], hover⟩
  · have htop : (getPortfolioSummary invs).top_performers =
        (sortPerfDesc (invs.map perfEntry)).take 5 := by
      simp [getPortfolioSummary, hinv]
    have hworst : (getPortfolioSummary invs).worst_performers =
        (if 5 < invs.length then
          (sortPerfDesc (invs.map perfEntry)).drop (invs.length - 5) else []) := by
      simp [getPortfolioSummary, hinv, hlen]
    refine ⟨htop, hworst, hsorted, hperm, ?_, ?_, hover⟩
    · rw [htop, List.length_take, hlen]
    · intro a ha b hb
      rw [htop] at ha
      have := List.take_append_drop 5 (sortPerfDesc (invs.map perfEntry))
      rw [← this, List.Sorted, List.pairwise_append] at hsorted
      exact hsorted.2.2 a ha b hb

/-- Witness for C1: the maximality part applied to concrete members of the
six-investment portfolio (the worst entry F against the best entry A). -/
theorem c1_performers_witness :
    (⟨16, "F", .other, 100, 110, 10, 10⟩ : PerfEntry).return_percentage ≤
    (⟨11, "A", .stock, 100, 160, 60, 60⟩ : PerfEntry).return_percentage := by
  have htop6 : (getPortfolioSummary exInvs6).top_performers =
      [⟨11, "A", .stock, 100, 160, 60, 60⟩, ⟨12, "B", .stock, 100, 150, 50, 50⟩,
       ⟨13, "C", .bond, 100, 140, 40, 40⟩, ⟨14, "D", .fund, 100, 130, 30, 30⟩,
       ⟨15, "E", .crypto, 100, 120, 20, 20⟩] := by
    norm_num [getPortfolioSummary, exInvs6, perfEntry, sortPerfDesc,
      List.insertionSort, List.orderedInsert]
  have hdrop6 : (sortPerfDesc (exInvs6.map perfEntry)).drop 5 =
      [⟨16, "F", .other, 100, 110, 10, 10⟩] := by
    norm_num [exInvs6, perfEntry, sortPerfDesc,
      List.insertionSort, List.orderedInsert]
  exact (c1_performers exInvs6).2.2.2.2.2.1 _ (by rw [htop6]; simp) _ (by rw [hdrop6]; simp)

/-- The service-level `create_budget` stores the row exactly as passed:
no validation of `period_type` or `month` happens in the service. -/
theorem createBudget_ok_fields {db : DB} {nm pt : String} {y : ℕ}
    {mo : Option ℕ} {ds : Option String} {now : Date} {b : Budget} {db' : DB}
    (h : createBudget db nm pt y mo ds now = .ok (b, db')) :
    b.month = mo ∧ b.period_type = pt ∧ b.year = y := by
  unfold createBudget at h
  split at h
  · exact absurd h (by simp)
  · simp only [Except.ok.injEq, Prod.mk.injEq] at h
    rw [← h.1]
    exact ⟨rfl, rfl, rfl⟩

/-- C2 counterexample: a `budgets create` call with `period_type =
"monthly"` and an *absent* month does not raise a validation error — it
silently defaults the month to the current month (here March). -/
theorem c2_counterexample :
    (createBudgetCommand emptyDB "B" "monthly" (some 2024) none none
      ⟨2025, 3, 10⟩).map (fun p => p.1.month) = .ok (some 3) := rfl

/-- C2 amended: for `period_type = "monthly"` a month *present but outside*
[1, 12] is rejected with a validation error before any write; an absent
month is replaced by the current month; and for `period_type = "yearly"`
any created budget stores `month = none` regardless of the argument.
(The validation lives in the CLI command; the service `create_budget`
itself stores whatever it is given, per `createBudget_ok_fields`.) -/
theorem c2_budget_create_validation (db : DB) (nm : String) (yr : Option ℕ)
    (mo : Option ℤ) (ds : Option String) (now : Date) :
    (∀ m : ℤ, mo = some m → (m < 1 ∨ 12 < m) →
      createBudgetCommand db nm "monthly" yr mo ds now = .error .validationError) ∧
    (∀ b db', createBudgetCommand db nm "yearly" yr mo ds now = .ok (b, db') →
      b.month = none) ∧
    (mo = none → ∀ b db',
      createBudgetCommand db nm "monthly" yr mo ds now = .ok (b, db') →
      b.month = some now.month) := by
  refine ⟨?_, ?_, ?_⟩
  · rintro m rfl hm
    simp [createBudgetCommand, hm, Except.bind]
  · intro b db' h
    simp only [createBudgetCommand] at h
    norm_num at h
    exact (createBudget_ok_fields h).1
  · rintro rfl b db' h
    simp only [createBudgetCommand] at h
    norm_num at h
    exact (createBudget_ok_fields h).1

/-- Witness for C2: month 15 is rejected, and a yearly budget created with
a (would-be) month argument stores `month = none`. -/
theorem c2_budget_create_validation_witness :
    createBudgetCommand emptyDB "B" "monthly" none (some 15) none
      ⟨2025, 3, 10⟩ = .error .validationError ∧
    (⟨1, "Y", "yearly", 2024, none, none, true, ⟨2025, 3, 10⟩⟩ : Budget).month = none :=
  ⟨(c2_budget_create_validation emptyDB "B" none (some 15) none ⟨2025, 3, 10⟩).1
      15 rfl (by norm_num),
   (c2_budget_create_validation emptyDB "Y" (some 2024) (some 7) none ⟨2025, 3, 10⟩).2.1
      ⟨1, "Y", "yearly", 2024, none, none, true, ⟨2025, 3, 10⟩⟩
      { emptyDB with budgets := [⟨1, "Y", "yearly", 2024, none, none, true, ⟨2025, 3, 10⟩⟩]
                     next_id := 2 }
      rfl⟩

/-- C6: for every budget that resolves by id, each per-category analysis
block satisfies `remaining = allocated − spent`,
`percentage_used = spent/allocated × 100` (0 when allocated is 0) and
`is_over_budget = (spent > allocated)`, where `spent` sums the expense
transactions of that category whose date lies in the budget's period
window — `[first day of month, first day of next month)` for monthly
budgets, the full calendar year for yearly ones — and the analysed
categories are exactly the budget's allocations, in order. -/
theorem c6_budget_analysis (db : DB) (bid : ℕ) (a : BudgetAnalysis)
    (ha : getBudgetAnalysis db bid = .ok a) :
    (∀ e ∈ a.categories,
      e.remaining_amount = e.allocated_amount - e.spent_amount ∧
      (e.allocated_amount = 0 → e.percentage_used = 0) ∧
      (0 < e.allocated_amount →
        e.percentage_used = e.spent_amount / e.allocated_amount * 100) ∧
      (e.is_over_budget = true ↔ e.allocated_amount < e.spent_amount) ∧
      e.spent_amount = sumQ ((db.transactions.filter (fun t =>
        t.category_id == e.category_id && t.transaction_type == .expense &&
        a.period_start.le t.transaction_date &&
        t.transaction_date.lt a.period_end)).map (·.amount))) ∧
    (∃ b, db.budgets.find? (fun x => x.id == bid) = some b ∧
      (b.period_type = "monthly" → ∀ m, b.month = some m → 1 ≤ m →
        a.period_start = ⟨b.year, m, 1⟩ ∧
        a.period_end = (if m = 12 then (⟨b.year + 1, 1, 1⟩ : Date)
          else ⟨b.year, m + 1, 1⟩)) ∧
      (b.period_type = "yearly" →
        a.period_start = ⟨b.year, 1, 1⟩ ∧ a.period_end = ⟨b.year + 1, 1, 1⟩)) ∧
    a.categories.map (fun e => (e.category_id, e.allocated_amount)) =
      (db.budget_categories.filter (fun bc => bc.budget_id == bid)).map
        (fun bc => (bc.category_id, bc.allocated_amount)) := by
  unfold getBudgetAnalysis at ha
  cases hfind : db.budgets.find? (fun b => b.id == bid) with
  | none => rw [hfind] at ha; exact absurd ha (by simp)
  | some b0 =>
    rw [hfind] at ha
    simp only [Except.ok.injEq] at ha
    subst ha
    refine ⟨?_, ?_, ?_⟩
    · intro e he
      obtain ⟨bc, hbc, rfl⟩ := List.mem_map.mp he
      dsimp only
      refine ⟨rfl, ?_, ?_, by simp, rfl⟩
      · intro h0; rw [h0]; simp
      · intro hpos; rw [if_pos hpos]
    · refine ⟨b0, rfl, ?_, ?_⟩
      · intro hpt m hm hm1
        have hm0 : m ≠ 0 := by omega
        by_cases hm12 : m = 12 <;>
          simp [budgetWindow, hpt, hm, hm0, hm12, pyOrNat]
      · intro hpt
        simp [budgetWindow, hpt]
    · simp only [List.map_map]
      rfl

/-- Witness for C6: on the fixture store the June budget allocating 500 to
a category with 600 spent yields remaining −100, percentage_used 120 and
is_over_budget true. -/
theorem c6_budget_analysis_witness :
    getBudgetAnalysis exBudgetDB 10 = .ok exAnalysis6 ∧
    ((⟨1, some "food", 500, 600, -100, 120, true⟩ :
        CategoryAnalysis).remaining_amount =
      (⟨1, some "food", 500, 600, -100, 120, true⟩ :
        CategoryAnalysis).allocated_amount -
      (⟨1, some "food", 500, 600, -100, 120, true⟩ :
        CategoryAnalysis).spent_amount ∧
     ((⟨1, some "food", 500, 600, -100, 120, true⟩ :
        CategoryAnalysis).allocated_amount = 0 →
      (⟨1, some "food", 500, 600, -100, 120, true⟩ :
        CategoryAnalysis).percentage_used = 0) ∧
     (0 < (⟨1, some "food", 500, 600, -100, 120, true⟩ :
        CategoryAnalysis).allocated_amount →
      (⟨1, some "food", 500, 600, -100, 120, true⟩ :
        CategoryAnalysis).percentage_used =
        (⟨1, some "food", 500, 600, -100, 120, true⟩ :
          CategoryAnalysis).spent_amount /
        (⟨1, some "food", 500, 600, -100, 120, true⟩ :
          CategoryAnalysis).allocated_amount * 100) ∧
     ((⟨1, some "food", 500, 600, -100, 120, true⟩ :
        CategoryAnalysis).is_over_budget = true ↔
      (⟨1, some "food", 500, 600, -100, 120, true⟩ :
        CategoryAnalysis).allocated_amount <
      (⟨1, some "food", 500, 600, -100, 120, true⟩ :
        CategoryAnalysis).spent_amount) ∧
     (⟨1, some "food", 500, 600, -100, 120, true⟩ :
        CategoryAnalysis).spent_amount =
       sumQ ((exBudgetDB.transactions.filter (fun t =>
         t.category_id == (⟨1, some "food", 500, 600, -100, 120, true⟩ :
           CategoryAnalysis).category_id &&
         t.transaction_type == .expense &&
         exAnalysis6.period_start.le t.transaction_date &&
         t.transaction_date.lt exAnalysis6.period_end)).map (·.amount))) := by
  have hEval : getBudgetAnalysis exBudgetDB 10 = .ok exAnalysis6 := by
    norm_num [getBudgetAnalysis, exBudgetDB, budgetWindow, spentFor, sumQ, exTx3,
      pyOrNat, exAnalysis6, Date.le, Date.lt]
  exact ⟨hEval, (c6_budget_analysis exBudgetDB 10 exAnalysis6 hEval).1
    ⟨1, some "food", 500, 600, -100, 120, true⟩ (by simp [exAnalysis6])⟩

/-- C10 counterexample: updating a transaction with a `None`-valued
`description` leaves `description` alone but *changes* `updated_at` (a
field outside the claim's allowed set), and passing `category_name = None`
does not leave the category unchanged — the `'category_name' in kwargs`
check fires, the null-named get-or-create violates the NOT NULL
constraint, and the whole update fails. -/
theorem c10_counterexample :
    updateTransaction exBudgetDB 3 { description := some none } ⟨2025, 7, 1⟩ =
      .ok (some (exTx3After, exBudgetDBAfter)) ∧
    exTx3After.updated_at ≠ exTx3.updated_at ∧
    updateTransaction exBudgetDB 3 { category_name := some none } ⟨2025, 7, 1⟩ =
      .error .notNullViolation := by
  refine ⟨rfl, by simp [exTx3After, exTx3], rfl⟩

/-- C10 amended: on a successful update, `id` and `created_at` are
unchanged but `updated_at` is set to the update time; each of the seven
allowed scalar fields is unchanged whenever its keyword is absent or
passed as `None`; and the category/account references are unchanged
whenever the corresponding keyword is *absent* (a present-but-`None`
name is not ignored: it triggers the lookup path, as the counterexample
shows). -/
theorem c10_update_transaction_frame (db : DB) (tid : ℕ) (kw : TxKwargs)
    (now : Date) (t t' : Transaction) (db' : DB)
    (hfind : db.transactions.find? (fun x => x.id == tid) = some t)
    (hok : updateTransaction db tid kw now = .ok (some (t', db'))) :
    t'.id = t.id ∧ t'.created_at = t.created_at ∧ t'.updated_at = now ∧
    ((kw.amount = none ∨ kw.amount = some none) → t'.amount = t.amount) ∧
    ((kw.description = none ∨ kw.description = some none) →
      t'.description = t.description) ∧
    ((kw.transaction_type = none ∨ kw.transaction_type = some none) →
      t'.transaction_type = t.transaction_type) ∧
    ((kw.payment_method = none ∨ kw.payment_method = some none) →
      t'.payment_method = t.payment_method) ∧
    ((kw.tags = none ∨ kw.tags = some none) → t'.tags = t.tags) ∧
    ((kw.notes = none ∨ kw.notes = some none) → t'.notes = t.notes) ∧
    ((kw.transaction_date = none ∨ kw.transaction_date = some none) →
      t'.transaction_date = t.transaction_date) ∧
    (kw.category_name = none → t'.category_id = t.category_id) ∧
    (kw.account_name = none → t'.account_id = t.account_id) := by
  have hks : ∀ {α : Type} (c : α) {k : Option (Option α)},
      (k = none ∨ k = some none) → kwSet c k = c := by
    rintro α c k (rfl | rfl) <;> rfl
  have hko : ∀ {α : Type} (c : Option α) {k : Option (Option α)},
      (k = none ∨ k = some none) → kwSetOpt c k = c := by
    rintro α c k (rfl | rfl) <;> rfl
  unfold updateTransaction at hok
  rw [hfind] at hok
  dsimp only at hok
  rcases kc : kw.category_name with _ | cn <;> rw [kc] at hok <;> dsimp only at hok
  · rcases ka : kw.account_name with _ | an <;> rw [ka] at hok <;> dsimp only at hok
    · simp only [Except.ok.injEq, Option.some.injEq, Prod.mk.injEq] at hok
      obtain ⟨rfl, rfl⟩ := hok
      refine ⟨rfl, rfl, rfl, fun h => hks _ h, fun h => hks _ h, fun h => hks _ h,
        fun h => hks _ h, fun h => hko _ h, fun h => hko _ h, fun h => hks _ h,
        fun _ => rfl, fun _ => rfl⟩
    · rcases hacc : getOrCreateAccount db an now with e | p <;> rw [hacc] at hok <;>
        dsimp only at hok
      · exact absurd hok (by simp)
      · simp only [Except.ok.injEq, Option.some.injEq, Prod.mk.injEq] at hok
        obtain ⟨rfl, rfl⟩ := hok
        refine ⟨rfl, rfl, rfl, fun h => hks _ h, fun h => hks _ h, fun h => hks _ h,
          fun h => hks _ h, fun h => hko _ h, fun h => hko _ h, fun h => hks _ h,
          fun _ => rfl, ?_⟩
        exact fun h => Option.noConfusion h
  · rcases hcat : getOrCreateCategory db cn now with e | p <;> rw [hcat] at hok <;>
      dsimp only at hok
    · exact absurd hok (by simp)
    · rcases ka : kw.account_name with _ | an <;> rw [ka] at hok <;> dsimp only at hok
      · simp only [Except.ok.injEq, Option.some.injEq, Prod.mk.injEq] at hok
        obtain ⟨rfl, rfl⟩ := hok
        refine ⟨rfl, rfl, rfl, fun h => hks _ h, fun h => hks _ h, fun h => hks _ h,
          fun h => hks _ h, fun h => hko _ h, fun h => hko _ h, fun h => hks _ h,
          ?_, fun _ => rfl⟩
        exact fun h => Option.noConfusion h
      · rcases hacc : getOrCreateAccount p.2 an now with e | q <;> rw [hacc] at hok <;>
          dsimp only at hok
        · exact absurd hok (by simp)
        · simp only [Except.ok.injEq, Option.some.injEq, Prod.mk.injEq] at hok
          obtain ⟨rfl, rfl⟩ := hok
          refine ⟨rfl, rfl, rfl, fun h => hks _ h, fun h => hks _ h, fun h => hks _ h,
            fun h => hks _ h, fun h => hko _ h, fun h => hko _ h, fun h => hks _ h,
            ?_, ?_⟩
          · exact fun h => Option.noConfusion h
          · exact fun h => Option.noConfusion h

/-- Witness for C10: the frame theorem applied to the fixture update with
a `None`-valued `description` keyword. -/
theorem c10_update_transaction_frame_witness :
    exTx3After.id = exTx3.id ∧ exTx3After.created_at = exTx3.created_at ∧
    exTx3After.updated_at = ⟨2025, 7, 1⟩ ∧
    exTx3After.description = exTx3.description ∧
    exTx3After.category_id = exTx3.category_id := by
  have h := c10_update_transaction_frame exBudgetDB 3 { description := some none }
    ⟨2025, 7, 1⟩ exTx3 exTx3After exBudgetDBAfter (by rfl) (by rfl)
  exact ⟨h.1, h.2.1, h.2.2.1, h.2.2.2.2.1 (Or.inr rfl), h.2.2.2.2.2.2.2.2.2.2.1 rfl⟩

/-! ## Calendar-order lemmas supporting the cash-flow claims -/

theorem Date.le_iff {a b : Date} : a.le b = true ↔
    (a.year < b.year ∨ (a.year = b.year ∧
      (a.month < b.month ∨ (a.month = b.month ∧ a.day ≤ b.day)))) := by
  simp [Date.le]

theorem Date.lt_iff {a b : Date} : a.lt b = true ↔
    (a.year < b.year ∨ (a.year = b.year ∧
      (a.month < b.month ∨ (a.month = b.month ∧ a.day < b.day)))) := by
  simp [Date.lt]

theorem Date.lt_of_not_le {a b : Date} (h : a.le b = false) : b.lt a = true := by
  rw [Date.lt_iff]
  rw [← Bool.not_eq_true, Date.le_iff] at h
  omega

theorem Date.le_rfl (a : Date) : a.le a = true := by
  rw [Date.le_iff]; omega

theorem Date.le_trans {a b c : Date} (h1 : a.le b = true) (h2 : b.le c = true) :
    a.le c = true := by
  rw [Date.le_iff] at *
  omega

theorem Date.eq_of_le_le {a b : Date} (h1 : a.le b = true) (h2 : b.le a = true) :
    a = b := by
  rw [Date.le_iff] at *
  cases a; cases b
  simp only [Date.mk.injEq]
  simp only at h1 h2
  omega

theorem daysInMonth_le (y m : ℕ) : daysInMonth y m ≤ 31 := by
  unfold daysInMonth
  split_ifs <;> omega

theorem one_le_daysInMonth (y m : ℕ) : 1 ≤ daysInMonth y m := by
  unfold daysInMonth
  split_ifs <;> omega

theorem daysInMonth_twelve (y : ℕ) : daysInMonth y 12 = 31 := by
  unfold daysInMonth
  norm_num

theorem Date.Valid.succ {a : Date} (ha : a.Valid) : a.succ.Valid := by
  obtain ⟨h1, h2, h3, h4, h5⟩ := ha
  unfold Date.succ Date.Valid
  have := one_le_daysInMonth a.year (a.month + 1)
  have := one_le_daysInMonth (a.year + 1) 1
  split_ifs <;> simp_all <;> omega

theorem Date.mu_lt_succ {a : Date} (ha : a.Valid) : a.mu < a.succ.mu := by
  obtain ⟨h1, h2, h3, h4, h5⟩ := ha
  have h6 := daysInMonth_le a.year a.month
  unfold Date.succ Date.mu
  split_ifs <;> simp <;> omega

theorem Date.mu_le_of_le {a b : Date} (ha : a.Valid) (hb : b.Valid)
    (h : a.le b = true) : a.mu ≤ b.mu := by
  obtain ⟨a1, a2, a3, a4, a5⟩ := ha
  obtain ⟨b1, b2, b3, b4, b5⟩ := hb
  have h1 := daysInMonth_le a.year a.month
  have h2 := daysInMonth_le b.year b.month
  rw [Date.le_iff] at h
  unfold Date.mu
  omega

theorem Date.succ_le_of_lt {a b : Date} (ha : a.Valid) (hb : b.Valid)
    (h : a.lt b = true) : a.succ.le b = true := by
  obtain ⟨a1, a2, a3, a4, a5⟩ := ha
  obtain ⟨b1, b2, b3, b4, b5⟩ := hb
  rw [Date.lt_iff] at h
  unfold Date.succ
  rcases h with h | ⟨hy, h | ⟨hm, h⟩⟩
  · split_ifs <;> rw [Date.le_iff] <;> simp <;> omega
  · split_ifs <;> rw [Date.le_iff] <;> simp <;> omega
  · rw [← hy, ← hm] at b5
    split_ifs <;> rw [Date.le_iff] <;> simp <;> omega

theorem Date.le_succ {a : Date} (ha : a.Valid) : a.le a.succ = true := by
  obtain ⟨h1, h2, h3, h4, h5⟩ := ha
  unfold Date.succ
  split_ifs <;> rw [Date.le_iff] <;> simp

theorem Date.Valid.addDays {a : Date} (n : ℕ) (ha : a.Valid) :
    (Date.addDays n a).Valid := by
  induction n with
  | zero => exact ha
  | succ k ih => exact Date.Valid.succ ih

theorem Date.le_addDays {a : Date} (n : ℕ) (ha : a.Valid) :
    a.le (Date.addDays n a) = true := by
  induction n with
  | zero => exact Date.le_rfl a
  | succ k ih =>
    exact Date.le_trans ih (Date.le_succ (Date.Valid.addDays k ha))

theorem Date.fonm_valid {a : Date} (ha : a.Valid) : a.firstOfNextMonth.Valid := by
  obtain ⟨h1, h2, h3, h4, h5⟩ := ha
  unfold Date.firstOfNextMonth Date.Valid
  have := one_le_daysInMonth a.year (a.month + 1)
  have := one_le_daysInMonth (a.year + 1) 1
  split_ifs <;> simp <;> omega

theorem Date.pred_fonm {a : Date} (ha : a.Valid) :
    a.firstOfNextMonth.pred = ⟨a.year, a.month, daysInMonth a.year a.month⟩ := by
  obtain ⟨h1, h2, h3, h4, h5⟩ := ha
  unfold Date.firstOfNextMonth Date.pred
  by_cases hm : a.month = 12
  · rw [if_pos hm, if_neg (by simp), if_neg (by simp)]
    rw [hm, daysInMonth_twelve]
    simp
  · rw [if_neg hm, if_neg (by simp), if_pos (by simp; omega)]
    simp

theorem Date.succ_pred_fonm {a : Date} (ha : a.Valid) :
    a.firstOfNextMonth.pred.succ = a.firstOfNextMonth := by
  rw [Date.pred_fonm ha]
  obtain ⟨h1, h2, h3, h4, h5⟩ := ha
  unfold Date.succ Date.firstOfNextMonth
  by_cases hm : a.month = 12
  · rw [if_neg (by simp), if_neg (by simp [hm]), if_pos hm]
  · rw [if_neg (by simp), if_pos (by simp; omega), if_neg hm]

theorem Date.pred_fonm_valid {a : Date} (ha : a.Valid) :
    a.firstOfNextMonth.pred.Valid := by
  rw [Date.pred_fonm ha]
  obtain ⟨h1, h2, h3, h4, h5⟩ := ha
  exact ⟨h1, h2, h3, one_le_daysInMonth _ _, le_refl _⟩

theorem Date.le_pred_fonm {a : Date} (ha : a.Valid) :
    a.le a.firstOfNextMonth.pred = true := by
  rw [Date.pred_fonm ha, Date.le_iff]
  obtain ⟨h1, h2, h3, h4, h5⟩ := ha
  simp
  omega

theorem periodEnd_valid (g : Granularity) {a : Date} (ha : a.Valid) :
    (periodEnd g a).Valid := by
  cases g with
  | daily => exact ha
  | weekly => exact Date.Valid.addDays 6 ha
  | monthly => exact Date.pred_fonm_valid ha

theorem le_periodEnd (g : Granularity) {a : Date} (ha : a.Valid) :
    a.le (periodEnd g a) = true := by
  cases g with
  | daily => exact Date.le_rfl a
  | weekly => exact Date.le_addDays 6 ha
  | monthly => exact Date.le_pred_fonm ha

theorem nextDate_eq_succ_periodEnd (g : Granularity) {a : Date} (ha : a.Valid) :
    nextDate g a = (periodEnd g a).succ := by
  cases g with
  | daily => rfl
  | weekly => rfl
  | monthly => exact (Date.succ_pred_fonm ha).symm

theorem nextDate_valid (g : Granularity) {a : Date} (ha : a.Valid) :
    (nextDate g a).Valid := by
  rw [nextDate_eq_succ_periodEnd g ha]
  exact Date.Valid.succ (periodEnd_valid g ha)

theorem mu_lt_nextDate (g : Granularity) {a : Date} (ha : a.Valid) :
    a.mu < (nextDate g a).mu := by
  rw [nextDate_eq_succ_periodEnd g ha]
  calc a.mu ≤ (periodEnd g a).mu :=
        Date.mu_le_of_le ha (periodEnd_valid g ha) (le_periodEnd g ha)
    _ < (periodEnd g a).succ.mu := Date.mu_lt_succ (periodEnd_valid g ha)

/-! ## Cash-flow loop invariants -/

theorem cashFlowGo_succ_of_le {g : Granularity} {txs : List Transaction}
    {e cur : Date} {k : ℕ} {bal : ℚ} (hce : cur.le e = true) :
    cashFlowGo g txs e (k + 1) cur bal =
      bucketFor g txs cur bal ::
        cashFlowGo g txs e k (nextDate g cur)
          (bucketFor g txs cur bal).running_balance := by
  simp [cashFlowGo, hce]

theorem cashFlowGo_succ_of_gt {g : Granularity} {txs : List Transaction}
    {e cur : Date} {k : ℕ} {bal : ℚ} (hce : cur.le e = false) :
    cashFlowGo g txs e (k + 1) cur bal = [] := by
  simp [cashFlowGo, hce]

/-- The structural invariants of the bucket loop: on sufficient fuel the
produced buckets start at `cur`, have the per-granularity shape, stay
inside `[cur, e]` on the left, are contiguous (each bucket starts the day
after the previous one ends), and the final bucket ends at or past `e`. -/
theorem cashFlowGo_spec (g : Granularity) (txs : List Transaction) (e : Date)
    (he : e.Valid) :
    ∀ fuel (cur : Date) (bal : ℚ), cur.Valid → e.mu + 1 - cur.mu ≤ fuel →
      (cur.le e = true → ∃ b l, cashFlowGo g txs e fuel cur bal = b :: l ∧
        b.period_start = cur) ∧
      (cur.le e = false → cashFlowGo g txs e fuel cur bal = []) ∧
      (∀ b ∈ cashFlowGo g txs e fuel cur bal,
        b.period_start.Valid ∧ b.period_end = periodEnd g b.period_start ∧
        b.period_start.le b.period_end = true ∧ b.period_start.le e = true) ∧
      List.Chain' (fun x y => y.period_start = x.period_end.succ)
        (cashFlowGo g txs e fuel cur bal) ∧
      (∀ b, (cashFlowGo g txs e fuel cur bal).getLast? = some b →
        e.le b.period_end = true) := by
  intro fuel
  induction fuel with
  | zero =>
    intro cur bal hcur hfuel
    refine ⟨?_, fun _ => rfl, by simp [cashFlowGo], by simp [cashFlowGo],
      by simp [cashFlowGo]⟩
    intro hce
    exact absurd hfuel (by have := Date.mu_le_of_le hcur he hce; omega)
  | succ k ih =>
    intro cur bal hcur hfuel
    by_cases hce : cur.le e = true
    · have hnv : (nextDate g cur).Valid := nextDate_valid g hcur
      have hmu : cur.mu < (nextDate g cur).mu := mu_lt_nextDate g hcur
      have hfuel' : e.mu + 1 - (nextDate g cur).mu ≤ k := by omega
      obtain ⟨ih1, ih2, ih3, ih4, ih5⟩ :=
        ih (nextDate g cur) (bucketFor g txs cur bal).running_balance hnv hfuel'
      rw [cashFlowGo_succ_of_le hce]
      refine ⟨fun _ => ⟨_, _, rfl, rfl⟩,
        fun hcf => Bool.noConfusion (hce.symm.trans hcf), ?_, ?_, ?_⟩
      · intro b hb
        rcases List.mem_cons.mp hb with rfl | hb
        · exact ⟨hcur, rfl, le_periodEnd g hcur, hce⟩
        · exact ih3 b hb
      · rw [List.chain'_cons']
        refine ⟨?_, ih4⟩
        intro y hy
        cases hrest : cashFlowGo g txs e k (nextDate g cur)
            (bucketFor g txs cur bal).running_balance with
        | nil => rw [hrest] at hy; cases hy
        | cons b' l' =>
          rw [hrest] at hy
          simp only [List.head?_cons, Option.mem_def, Option.some.injEq] at hy
          subst hy
          by_cases hne : (nextDate g cur).le e = true
          · obtain ⟨b2, l2, h2, hstart⟩ := ih1 hne
            rw [hrest] at h2
            cases h2
            rw [hstart, nextDate_eq_succ_periodEnd g hcur]
            rfl
          · rw [ih2 (by rw [Bool.not_eq_true] at hne; exact hne)] at hrest
            cases hrest
      · intro b hb
        cases hrest : cashFlowGo g txs e k (nextDate g cur)
            (bucketFor g txs cur bal).running_balance with
        | nil =>
          rw [hrest] at hb
          simp only [List.getLast?_singleton, Option.some.injEq] at hb
          subst hb
          by_cases hne : (nextDate g cur).le e = true
          · exfalso
            obtain ⟨b2, l2, h2, _⟩ := ih1 hne
            rw [hrest] at h2
            cases h2
          · have hlt : e.lt (nextDate g cur) = true :=
              Date.lt_of_not_le (by rw [Bool.not_eq_true] at hne; exact hne)
            rw [nextDate_eq_succ_periodEnd g hcur] at hlt
            have hpev : (periodEnd g cur).Valid := periodEnd_valid g hcur
            by_cases hle : e.le (bucketFor g txs cur bal).period_end = true
            · exact hle
            · exfalso
              have h3 : (bucketFor g txs cur bal).period_end.lt e = true :=
                Date.lt_of_not_le (by rw [Bool.not_eq_true] at hle; exact hle)
              have h4 := Date.succ_le_of_lt hpev he h3
              rw [Date.lt_iff] at hlt
              rw [Date.le_iff] at h4
              omega
        | cons b' l' =>
          rw [hrest, List.getLast?_cons_cons] at hb
          rw [← hrest] at hb
          exact ih5 b hb
    · rw [Bool.not_eq_true] at hce
      rw [cashFlowGo_succ_of_gt hce]
      exact ⟨fun h => Bool.noConfusion (h.symm.trans hce), fun _ => rfl,
        by simp, by simp, by simp⟩

theorem cashFlowGo_rbok (g : Granularity) (txs : List Transaction) (e : Date) :
    ∀ fuel (cur : Date) (bal : ℚ), RBOk bal (cashFlowGo g txs e fuel cur bal) := by
  intro fuel
  induction fuel with
  | zero => intro cur bal; trivial
  | succ k ih =>
    intro cur bal
    by_cases hce : cur.le e = true
    · rw [cashFlowGo_succ_of_le hce]
      exact ⟨rfl, ih _ _⟩
    · rw [Bool.not_eq_true] at hce
      rw [cashFlowGo_succ_of_gt hce]
      trivial

theorem cashFlowGo_net (g : Granularity) (txs : List Transaction) (e : Date) :
    ∀ fuel (cur : Date) (bal : ℚ),
      ∀ b ∈ cashFlowGo g txs e fuel cur bal, b.net_flow = b.income - b.expense := by
  intro fuel
  induction fuel with
  | zero => intro cur bal b hb; cases hb
  | succ k ih =>
    intro cur bal b hb
    by_cases hce : cur.le e = true
    · rw [cashFlowGo_succ_of_le hce] at hb
      rcases List.mem_cons.mp hb with rfl | hb
      · rfl
      · exact ih _ _ b hb
    · rw [Bool.not_eq_true] at hce
      rw [cashFlowGo_succ_of_gt hce] at hb
      cases hb

theorem rbok_get_zero (l : List CashFlowBucket) (bal : ℚ) (hr : RBOk bal l)
    (h0 : 0 < l.length) :
    (l.get ⟨0, h0⟩).running_balance = bal + (l.get ⟨0, h0⟩).net_flow := by
  cases l with
  | nil => simp at h0
  | cons b r => exact hr.1

theorem rbok_get_succ (l : List CashFlowBucket) (bal : ℚ) (hr : RBOk bal l) :
    ∀ i (h : i + 1 < l.length) (h' : i < l.length),
      (l.get ⟨i + 1, h⟩).running_balance =
        (l.get ⟨i, h'⟩).running_balance + (l.get ⟨i + 1, h⟩).net_flow := by
  induction l generalizing bal with
  | nil => intro i h; simp at h
  | cons b rest ih =>
    intro i h h'
    obtain ⟨hb, hrest⟩ := hr
    cases i with
    | zero =>
      cases rest with
      | nil => simp at h
      | cons b2 r2 =>
        show b2.running_balance = b.running_balance + b2.net_flow
        exact hrest.1
    | succ j =>
      show (rest.get ⟨j + 1, _⟩).running_balance =
        (rest.get ⟨j, _⟩).running_balance + (rest.get ⟨j + 1, _⟩).net_flow
      exact ih b.running_balance hrest j (by simpa using h) (by simpa using h')

/-! ## Ordinal arithmetic for the daily bucket count -/

theorem daysBeforeMonth_succ (y m : ℕ) (hm : 1 ≤ m) :
    daysBeforeMonth y (m + 1) = daysBeforeMonth y m + daysInMonth y m := by
  cases m with
  | zero => omega
  | succ k => rfl

theorem daysBeforeMonth_one (y : ℕ) : daysBeforeMonth y 1 = 0 := rfl

theorem daysBeforeMonth_twelve (y : ℕ) :
    daysBeforeMonth y 12 = 334 + (if isLeap y then 1 else 0) := by
  by_cases hl : isLeap y <;> simp [daysBeforeMonth, daysInMonth, hl]

theorem leapsBefore_succ (y : ℕ) (hy : 1 ≤ y) :
    leapsBefore (y + 1) = leapsBefore y + (if isLeap y then 1 else 0) := by
  unfold leapsBefore
  by_cases hl : isLeap y
  · rw [if_pos hl]
    rw [isLeap] at hl
    simp only [Bool.or_eq_true, Bool.and_eq_true, beq_iff_eq, bne_iff_ne,
      ne_eq] at hl
    omega
  · rw [if_neg hl]
    rw [isLeap] at hl
    simp only [Bool.or_eq_true, Bool.and_eq_true, beq_iff_eq, bne_iff_ne,
      ne_eq, not_or, not_and, Bool.not_eq_true] at hl
    omega

theorem Date.toOrdinal_succ {a : Date} (ha : a.Valid) :
    a.succ.toOrdinal = a.toOrdinal + 1 := by
  obtain ⟨y, m, d⟩ := a
  obtain ⟨h1, h2, h3, h4, h5⟩ := ha
  simp only at h1 h2 h3 h4 h5
  unfold Date.succ
  simp only
  split_ifs with hd hm
  · unfold Date.toOrdinal
    simp only
    omega
  · have hd' : d = daysInMonth y m := by simp at hd; omega
    unfold Date.toOrdinal
    simp only
    rw [daysBeforeMonth_succ y m h2]
    omega
  · have hm' : m = 12 := by simp at hm; omega
    subst hm'
    have hd' : d = 31 := by
      rw [daysInMonth_twelve] at h5
      simp [daysInMonth_twelve] at hd
      omega
    subst hd'
    unfold Date.toOrdinal
    simp only [daysBeforeMonth_one, daysBeforeMonth_twelve]
    rw [leapsBefore_succ y h1]
    by_cases hl : isLeap y <;> simp [hl] <;> omega

theorem cashFlowGo_daily_length (txs : List Transaction) (e : Date) (he : e.Valid) :
    ∀ fuel (cur : Date) (bal : ℚ), cur.Valid → e.mu + 1 - cur.mu ≤ fuel →
      cur.le e = true →
      (cashFlowGo .daily txs e fuel cur bal).length + cur.toOrdinal =
        e.toOrdinal + 1 := by
  intro fuel
  induction fuel with
  | zero =>
    intro cur bal hcur hfuel hce
    exact absurd hfuel (by have := Date.mu_le_of_le hcur he hce; omega)
  | succ k ih =>
    intro cur bal hcur hfuel hce
    rw [cashFlowGo_succ_of_le hce]
    have hnv : (nextDate .daily cur).Valid := nextDate_valid _ hcur
    have hmu := mu_lt_nextDate .daily hcur
    have hfuel2 : e.mu + 1 - (nextDate .daily cur).mu ≤ k := by omega
    have hnds : nextDate .daily cur = cur.succ := rfl
    by_cases hne : (nextDate .daily cur).le e = true
    · have hrec := ih (nextDate .daily cur)
        (bucketFor .daily txs cur bal).running_balance hnv hfuel2 hne
      rw [hnds, Date.toOrdinal_succ hcur] at hrec
      simp only [List.length_cons]
      rw [hnds]
      omega
    · rw [Bool.not_eq_true] at hne
      have hrest := (cashFlowGo_spec .daily txs e he k (nextDate .daily cur)
        (bucketFor .daily txs cur bal).running_balance hnv hfuel2).2.1 hne
      rw [hrest]
      have hlt : e.lt (nextDate .daily cur) = true := Date.lt_of_not_le hne
      rw [hnds] at hlt
      have hle : e.le cur = true := by
        by_cases h : e.le cur = true
        · exact h
        · exfalso
          rw [Bool.not_eq_true] at h
          have h2 : cur.lt e = true := Date.lt_of_not_le h
          have h3 := Date.succ_le_of_lt hcur he h2
          rw [Date.lt_iff] at hlt
          rw [Date.le_iff] at h3
          omega
      have heq : cur = e := Date.eq_of_le_le hce hle
      subst heq
      simp only [List.length_cons, List.length_nil]
      omega

/-- C4 counterexample: a weekly report over 2024-01-01 .. 2024-01-10
produces a last bucket ending 2024-01-14 — strictly after `end_date`, so
the last bucket's `period_end` is *not* clipped at `end_date`. -/
theorem c4_counterexample :
    (generateCashFlowReport emptyDB ⟨2024, 1, 1⟩ ⟨2024, 1, 10⟩ "weekly").map
      (fun r => r.cash_flow.map (fun b => (b.period_start, b.period_end))) =
      .ok [((⟨2024, 1, 1⟩ : Date), (⟨2024, 1, 7⟩ : Date)),
           ((⟨2024, 1, 8⟩ : Date), (⟨2024, 1, 14⟩ : Date))] ∧
    Date.lt ⟨2024, 1, 10⟩ ⟨2024, 1, 14⟩ = true :=
  ⟨rfl, rfl⟩

/-- C4 amended: for every valid `start_date ≤ end_date` and a recognised
granularity, the report's buckets are non-empty, start exactly at
`start_date`, are contiguous and non-overlapping (each bucket starts the
calendar day after the previous one ends), have the per-granularity shape
(`periodEnd`: same day for daily, six days later for weekly, the last day
of the bucket's starting month for monthly), every bucket starts within
the range — but the *last bucket's `period_end` is not clipped*: it is
`≥ end_date` and can lie strictly beyond it (see the counterexample). -/
theorem c4_cash_flow_partition (db : DB) (sd ed : Date) (gs : String)
    (r : CashFlowReport) (hs : sd.Valid) (he : ed.Valid) (hse : sd.le ed = true)
    (hr : generateCashFlowReport db sd ed gs = .ok r) :
    ∃ g, parseGranularity gs = some g ∧
      r.cash_flow ≠ [] ∧
      (∀ b, r.cash_flow.head? = some b → b.period_start = sd) ∧
      List.Chain' (fun x y => y.period_start = x.period_end.succ) r.cash_flow ∧
      (∀ b ∈ r.cash_flow,
        b.period_end = periodEnd g b.period_start ∧
        b.period_start.le b.period_end = true ∧ b.period_start.le ed = true) ∧
      (∀ b, r.cash_flow.getLast? = some b → ed.le b.period_end = true) := by
  unfold generateCashFlowReport at hr
  cases hg : parseGranularity gs with
  | none => rw [hg] at hr; exact absurd hr (by simp)
  | some g =>
    rw [hg] at hr
    simp only [Except.ok.injEq] at hr
    have hcf : r.cash_flow = cashFlowGo g
        (db.transactions.filter (fun t =>
          sd.le t.transaction_date && t.transaction_date.le ed))
        ed (ed.mu + 1 - sd.mu) sd 0 := by
      rw [← hr]
      rfl
    obtain ⟨s1, s2, s3, s4, s5⟩ := cashFlowGo_spec g
      (db.transactions.filter (fun t =>
        sd.le t.transaction_date && t.transaction_date.le ed))
      ed he (ed.mu + 1 - sd.mu) sd 0 hs (le_refl _)
    refine ⟨g, rfl, ?_, ?_, ?_, ?_, ?_⟩ <;> rw [hcf]
    · obtain ⟨b, l, hgo, _⟩ := s1 hse
      rw [hgo]
      simp
    · intro b hb
      obtain ⟨b2, l2, hgo, hstart⟩ := s1 hse
      rw [hgo] at hb
      simp only [List.head?_cons, Option.some.injEq] at hb
      rw [← hb]
      exact hstart
    · exact s4
    · intro b hb
      exact ⟨(s3 b hb).2.1, (s3 b hb).2.2.1, (s3 b hb).2.2.2⟩
    · exact s5

/-- Witness for C4: the partition theorem applied to the concrete weekly
report over 2024-01-01 .. 2024-01-10. -/
theorem c4_cash_flow_partition_witness :
    ∃ r, generateCashFlowReport emptyDB ⟨2024, 1, 1⟩ ⟨2024, 1, 10⟩ "weekly" =
        .ok r ∧
      ∃ g, parseGranularity "weekly" = some g ∧
        r.cash_flow ≠ [] ∧
        (∀ b, r.cash_flow.head? = some b → b.period_start = ⟨2024, 1, 1⟩) ∧
        List.Chain' (fun x y => y.period_start = x.period_end.succ) r.cash_flow ∧
        (∀ b ∈ r.cash_flow,
          b.period_end = periodEnd g b.period_start ∧
          b.period_start.le b.period_end = true ∧
          b.period_start.le ⟨2024, 1, 10⟩ = true) ∧
        (∀ b, r.cash_flow.getLast? = some b →
          Date.le ⟨2024, 1, 10⟩ b.period_end = true) :=
  ⟨_, rfl, c4_cash_flow_partition emptyDB ⟨2024, 1, 1⟩ ⟨2024, 1, 10⟩ "weekly" _
    (by decide) (by decide) (by decide) rfl⟩

/-- C5: a daily report over a valid range produces exactly one bucket per
day (`count + start.toordinal = end.toordinal + 1`), the first bucket's
running balance equals its own net flow, each later bucket's running
balance is the previous running balance plus its own net flow, and every
bucket's net flow is its income minus its expense. -/
theorem c5_daily_cash_flow (db : DB) (sd ed : Date) (r : CashFlowReport)
    (hs : sd.Valid) (he : ed.Valid) (hse : sd.le ed = true)
    (hr : generateCashFlowReport db sd ed "daily" = .ok r) :
    r.cash_flow.length + sd.toOrdinal = ed.toOrdinal + 1 ∧
    (∀ h0 : 0 < r.cash_flow.length,
      (r.cash_flow.get ⟨0, h0⟩).running_balance =
        (r.cash_flow.get ⟨0, h0⟩).net_flow) ∧
    (∀ i (h : i + 1 < r.cash_flow.length) (h' : i < r.cash_flow.length),
      (r.cash_flow.get ⟨i + 1, h⟩).running_balance =
        (r.cash_flow.get ⟨i, h'⟩).running_balance +
        (r.cash_flow.get ⟨i + 1, h⟩).net_flow) ∧
    (∀ b ∈ r.cash_flow, b.net_flow = b.income - b.expense) := by
  unfold generateCashFlowReport at hr
  have hp : parseGranularity "daily" = some .daily := rfl
  rw [hp] at hr
  simp only [Except.ok.injEq] at hr
  have hcf : r.cash_flow = cashFlowGo .daily
      (db.transactions.filter (fun t =>
        sd.le t.transaction_date && t.transaction_date.le ed))
      ed (ed.mu + 1 - sd.mu) sd 0 := by
    rw [← hr]
    rfl
  have hrb : RBOk 0 r.cash_flow := by
    rw [hcf]; exact cashFlowGo_rbok .daily _ ed _ sd 0
  refine ⟨?_, ?_, ?_, ?_⟩
  · rw [hcf]
    exact cashFlowGo_daily_length _ ed he _ sd 0 hs (le_refl _) hse
  · intro h0
    have := rbok_get_zero r.cash_flow 0 hrb h0
    rw [this, zero_add]
  · intro i h h'
    exact rbok_get_succ r.cash_flow 0 hrb i h h'
  · intro b hb
    rw [hcf] at hb
    exact cashFlowGo_net .daily _ ed _ sd 0 b hb

/-- Witness for C5: the theorem applied to the ten-day daily report over
2024-01-01 .. 2024-01-10 (the spec's own example shape). -/
theorem c5_daily_cash_flow_witness :
    ∃ r, generateCashFlowReport emptyDB ⟨2024, 1, 1⟩ ⟨2024, 1, 10⟩ "daily" =
        .ok r ∧
      (r.cash_flow.length + (⟨2024, 1, 1⟩ : Date).toOrdinal =
        (⟨2024, 1, 10⟩ : Date).toOrdinal + 1 ∧
      (∀ h0 : 0 < r.cash_flow.length,
        (r.cash_flow.get ⟨0, h0⟩).running_balance =
          (r.cash_flow.get ⟨0, h0⟩).net_flow) ∧
      (∀ i (h : i + 1 < r.cash_flow.length) (h' : i < r.cash_flow.length),
        (r.cash_flow.get ⟨i + 1, h⟩).running_balance =
          (r.cash_flow.get ⟨i, h'⟩).running_balance +
          (r.cash_flow.get ⟨i + 1, h⟩).net_flow) ∧
      (∀ b ∈ r.cash_flow, b.net_flow = b.income - b.expense)) :=
  ⟨_, rfl, c5_daily_cash_flow emptyDB ⟨2024, 1, 1⟩ ⟨2024, 1, 10⟩ _
    (by decide) (by decide) (by decide) rfl⟩

end FinCli
